import Mathlib

/-!
Verification development for the arena allocator in src/arena.h.

Modelling conventions, matching the source:
- the C type unsigned long is modelled as Nat reduced modulo 2 ^ 64 at every
  arithmetic step where the machine wraps (the platform word is 64 bits wide);
- the C type int (sizes, alignments) is modelled as Int, with the source guards
  (size <= 0, alignment <= 0) translated verbatim; the C conversion
  (unsigned long)size for a positive int value is Int.toNat;
- C pointers are modelled by their numeric address, a 64-bit machine word, so
  pointer arithmetic is addition modulo 2 ^ 64;
- a C string pointer (const char *) is Option String, none standing for NULL;
- the external allocator of dynamic mode (ARENA_MALLOC) is a collaborator, so
  arena_init takes its two outcomes as explicit parameters: whether the struct
  allocation succeeds, and the base address of the data allocation when it
  succeeds.
-/

/-- The arena_t struct of src/arena.h lines 91-97: data pointer (as a numeric
address), capacity and pos (unsigned long), and the per-arena error string. -/
structure arena_t where
  data : Nat
  capacity : Nat
  pos : Nat
  error : Option String
deriving DecidableEq

/-- The C conversion from int to unsigned long (value modulo 2 ^ 64), used by
the assignment capacity = size in arena_init (src/arena.h line 250). -/
def intToULong (i : Int) : Nat := (i % (2 ^ 64 : Int)).toNat

/-- arena_init in dynamic mode, src/arena.h lines 229-256. The two ARENA_MALLOC
outcomes are parameters: structOk is whether the arena_t allocation succeeds,
dataPtr is the base address returned for the data allocation (none = NULL).
Returns the constructed arena (none = NULL) and the new value of
_arena_error_global. -/
def arena_init (size : Int) (structOk : Bool) (dataPtr : Option Nat)
    (g : Option String) : Option arena_t × Option String :=
  if structOk = false then
    (none, some "out of memory (arena struct)")
  else
    match dataPtr with
    | none => (none, some "out of memory (arena data)")
    | some base =>
        (some { data := base, capacity := intToULong size, pos := 0,
                error := some "no error" }, g)

/-- arena_alloc on a non-NULL arena, src/arena.h lines 264-293. The NULL branch
of the source (lines 266-270) only writes the global error slot and is modelled
in the world step relation below. Returns the pointer handed out (none = NULL)
together with the updated arena. -/
def arena_alloc (arena : arena_t) (size : Int) : Option Nat × arena_t :=
  if size ≤ 0 then
    (none, { arena with error := some "invalid allocation size" })
  else if (arena.pos + size.toNat) % 2 ^ 64 > arena.capacity then
    (none, { arena with error := some "arena overflow" })
  else
    (some ((arena.data + arena.pos) % 2 ^ 64),
     { arena with pos := (arena.pos + size.toNat) % 2 ^ 64,
                  error := some "no error" })

/-- arena_alloc_aligned on a non-NULL arena, src/arena.h lines 300-339. The two
halves of the C guard (alignment <= 0 || (alignment & (alignment - 1)) != 0)
are two nested ifs with the same error, matching the short-circuit evaluation;
in the second test alignment is positive, so the int bit operations coincide
with the Nat bit operations on alignment.toNat. The locals current_addr, off
and new_pos mirror the C locals current_addr, offset, new_pos. -/
def arena_alloc_aligned (arena : arena_t) (size alignment : Int) :
    Option Nat × arena_t :=
  if size ≤ 0 then
    (none, { arena with error := some "invalid allocation size" })
  else if alignment ≤ 0 then
    (none, { arena with error := some "alignment must be power of two" })
  else if alignment.toNat &&& (alignment.toNat - 1) ≠ 0 then
    (none, { arena with error := some "alignment must be power of two" })
  else
    let current_addr : Nat := (arena.data + arena.pos) % 2 ^ 64
    let off : Nat :=
      (alignment.toNat - current_addr % alignment.toNat) % alignment.toNat
    let new_pos : Nat := (arena.pos + off) % 2 ^ 64
    if (new_pos + size.toNat) % 2 ^ 64 > arena.capacity then
      (none, { arena with error := some "arena overflow (aligned)" })
    else
      (some ((arena.data + new_pos) % 2 ^ 64),
       { arena with pos := (new_pos + size.toNat) % 2 ^ 64,
                    error := some "no error" })

/-- The body of arena_reset for a non-NULL arena, src/arena.h lines 350-355. -/
def arena_reset_live (arena : arena_t) : arena_t :=
  { arena with pos := 0, error := some "no error" }

/-- arena_reset, src/arena.h lines 345-356: early return on NULL, otherwise
pos = 0 and error cleared. -/
def arena_reset (arena : Option arena_t) : Option arena_t :=
  match arena with
  | none => none
  | some a => some (arena_reset_live a)

/-- arena_error, src/arena.h lines 184-189: for a non-NULL arena returns its
error string with the defensive "no error" fallback for a NULL field; for a
NULL arena returns _arena_error_global (the parameter g). -/
def arena_error (g : Option String) (arena : Option arena_t) : Option String :=
  match arena with
  | some a => some (a.error.getD "no error")
  | none => g

/-! ### Fixed-storage mode (ARENA_NOALLOC)

The whole process state of fixed-storage mode: the fields of _arena_static
(src/arena.h line 201, initialised to {_arena_static_data, ARENA_SIZE, 0,
NULL}) together with the claim flag _arena_static_used (line 202). The
compile-time constant ARENA_SIZE and the address of _arena_static_data are the
capacity and dataBase fields, never changed by any operation. -/
structure StaticWorld where
  pos : Nat
  error : Option String
  used : Bool
  capacity : Nat
  dataBase : Nat
deriving DecidableEq

/-- The initial fixed-storage state for a given ARENA_SIZE value sz and static
buffer address base: pos 0, error NULL, claim flag clear (src/arena.h lines
200-202). -/
def staticWorld0 (sz base : Nat) : StaticWorld :=
  { pos := 0, error := none, used := false, capacity := sz, dataBase := base }

/-- arena_init in fixed-storage mode, src/arena.h lines 210-227. Returns
whether a non-NULL pointer (necessarily the address of _arena_static) was
returned, together with the new process state. -/
def arena_init_static (w : StaticWorld) : Bool × StaticWorld :=
  if w.used then
    (false, { w with error := some "static arena already used" })
  else
    (true, { w with pos := 0, error := some "no error", used := true })

/-- The arena_t view of the static arena _arena_static. -/
def toArenaS (w : StaticWorld) : arena_t :=
  { data := w.dataBase, capacity := w.capacity, pos := w.pos, error := w.error }

/-- Write back the mutable arena_t fields into the process state; the claim
flag is untouched because no arena operation mentions _arena_static_used. -/
def ofArenaS (w : StaticWorld) (ar : arena_t) : StaticWorld :=
  { w with pos := ar.pos, error := ar.error }

/-- arena_alloc called on the static arena instance. -/
def static_alloc (w : StaticWorld) (n : Int) : StaticWorld :=
  ofArenaS w (arena_alloc (toArenaS w) n).2

/-- arena_alloc_aligned called on the static arena instance. -/
def static_alloc_aligned (w : StaticWorld) (n al : Int) : StaticWorld :=
  ofArenaS w (arena_alloc_aligned (toArenaS w) n al).2

/-- arena_reset called on the static arena instance. -/
def static_reset (w : StaticWorld) : StaticWorld :=
  ofArenaS w (arena_reset_live (toArenaS w))

/-- One call to any exported mutating operation of fixed-storage mode
(arena_destroy is not compiled under ARENA_NOALLOC, src/arena.h line 362;
arena_error reads no state). Calls on a NULL arena pointer leave this state
unchanged. -/
inductive SStep : StaticWorld → StaticWorld → Prop
  | init (w : StaticWorld) : SStep w (arena_init_static w).2
  | alloc (w : StaticWorld) (n : Int) : SStep w (static_alloc w n)
  | allocAligned (w : StaticWorld) (n al : Int) :
      SStep w (static_alloc_aligned w n al)
  | reset (w : StaticWorld) : SStep w (static_reset w)

/-! ### Dynamic-mode process state

A world holds _arena_error_global and the (at most one) arena instance under
consideration. -/
structure DWorld where
  g : Option String
  arena : Option arena_t

/-- The initial dynamic-mode world: _arena_error_global = "no error"
(src/arena.h line 178) and no instance constructed yet. -/
def DW0 : DWorld := { g := some "no error", arena := none }

/-- Effect of one arena_init call on the world (src/arena.h lines 229-256):
the global error slot takes the value arena_init leaves in it, and the tracked
instance is replaced on success. -/
def dyn_init (w : DWorld) (size : Int) (structOk : Bool) (dataPtr : Option Nat) :
    DWorld :=
  match arena_init size structOk dataPtr w.g with
  | (none, g2) => { g := g2, arena := w.arena }
  | (some ar, g2) => { g := g2, arena := some ar }

/-- One call to any exported mutating operation of dynamic mode. The NULL
branches of arena_alloc and arena_alloc_aligned (src/arena.h lines 266-270 and
302-306) write "null arena" into the global slot; arena_destroy (lines
363-376) frees the instance and writes "no error" into the global slot;
arena_reset on NULL is an early return (line 347). -/
inductive DStep : DWorld → DWorld → Prop
  | init (w : DWorld) (size : Int) (structOk : Bool) (dataPtr : Option Nat) :
      DStep w (dyn_init w size structOk dataPtr)
  | allocNull (w : DWorld) (n : Int) : DStep w { w with g := some "null arena" }
  | alloc (w : DWorld) (ar : arena_t) (n : Int) (h : w.arena = some ar) :
      DStep w { w with arena := some (arena_alloc ar n).2 }
  | allocAlignedNull (w : DWorld) (n al : Int) :
      DStep w { w with g := some "null arena" }
  | allocAligned (w : DWorld) (ar : arena_t) (n al : Int)
      (h : w.arena = some ar) :
      DStep w { w with arena := some (arena_alloc_aligned ar n al).2 }
  | reset (w : DWorld) : DStep w { w with arena := arena_reset w.arena }
  | destroy (w : DWorld) (ar : arena_t) (h : w.arena = some ar) :
      DStep w { g := some "no error", arena := none }

/-- One call to arena_alloc, arena_alloc_aligned or arena_reset on a single
live dynamic arena instance (the operations that mutate an instance between
construction and destruction). -/
inductive AStep : arena_t → arena_t → Prop
  | alloc (ar : arena_t) (n : Int) : AStep ar (arena_alloc ar n).2
  | allocAligned (ar : arena_t) (n al : Int) :
      AStep ar (arena_alloc_aligned ar n al).2
  | reset (ar : arena_t) : AStep ar (arena_reset_live ar)

/-! ### Concrete states used by the counterexamples

All of these satisfy the live-arena invariant pos less or equal capacity; they
arise from arena_init with a negative int size (capacity = (unsigned long)size
is then at least 2 ^ 64 - 2 ^ 31) followed by a chain of successful
allocations, as the reachability lemma below shows for c7s1. -/

/-- Arena with capacity and pos both 2 ^ 64 - 1 (from arena_init (-1)). -/
def cexC1arena : arena_t :=
  { data := 1, capacity := 2 ^ 64 - 1, pos := 2 ^ 64 - 1, error := some "no error" }

/-- Arena with capacity and pos both 2 ^ 64 - 2 (from arena_init (-2)). -/
def cexC3arena : arena_t :=
  { data := 5, capacity := 2 ^ 64 - 2, pos := 2 ^ 64 - 2, error := some "no error" }

/-- Arena with capacity and pos both 2 ^ 64 - 7 (from arena_init (-7)). -/
def cexC2arena : arena_t :=
  { data := 6, capacity := 2 ^ 64 - 7, pos := 2 ^ 64 - 7, error := some "no error" }

/-- Arena with capacity and pos both 2 ^ 64 - 3 (from arena_init (-3)). -/
def cexC6arena : arena_t :=
  { data := 2, capacity := 2 ^ 64 - 3, pos := 2 ^ 64 - 3, error := some "no error" }

/-- The arena returned by arena_init (-1) when the data allocation returns
base address 1: capacity 2 ^ 64 - 1, pos 0. -/
def c7s0 : arena_t :=
  { data := 1, capacity := 2 ^ 64 - 1, pos := 0, error := some "no error" }

/-- The state of c7s0 after 8589934596 successful arena_alloc calls of size
2 ^ 31 - 1 (INT_MAX): pos = 2 ^ 64 - 4. -/
def c7s1 : arena_t :=
  { data := 1, capacity := 2 ^ 64 - 1, pos := 2 ^ 64 - 4, error := some "no error" }

/-! ### Helper lemmas -/

lemma two_pow_land_pred (k : Nat) : 2 ^ k &&& (2 ^ k - 1) = 0 := by
  apply Nat.eq_of_testBit_eq
  intro i
  simp only [Nat.testBit_land, Nat.zero_testBit, Nat.testBit_two_pow,
    Nat.testBit_two_pow_sub_one]
  rcases Nat.lt_trichotomy i k with h | h | h
  · simp [Nat.ne_of_gt h, h]
  · simp [h]
  · simp [Nat.ne_of_lt h, Nat.not_lt.mpr (Nat.le_of_lt h)]

lemma toNat_two_pow (k : Nat) : ((2 : Int) ^ k).toNat = 2 ^ k := by
  rw [show ((2 : Int) ^ k) = ((2 ^ k : Nat) : Int) by push_cast; ring]
  exact Int.toNat_natCast _

lemma alloc_success (ar : arena_t) (n : Int) (h1 : 0 < n)
    (h2 : ar.pos + n.toNat ≤ ar.capacity) (h3 : ar.capacity < 2 ^ 64) :
    arena_alloc ar n =
      (some ((ar.data + ar.pos) % 2 ^ 64),
       { ar with pos := ar.pos + n.toNat, error := some "no error" }) := by
  have hmod : (ar.pos + n.toNat) % 2 ^ 64 = ar.pos + n.toNat :=
    Nat.mod_eq_of_lt (lt_of_le_of_lt h2 h3)
  unfold arena_alloc
  rw [if_neg (by omega), hmod, if_neg (by omega)]

lemma alloc_fail (ar : arena_t) (n : Int) (h1 : 0 < n)
    (h2 : ar.capacity < ar.pos + n.toNat) (h3 : ar.pos + n.toNat < 2 ^ 64) :
    arena_alloc ar n = (none, { ar with error := some "arena overflow" }) := by
  have hmod := Nat.mod_eq_of_lt h3
  unfold arena_alloc
  rw [if_neg (by omega), hmod, if_pos (by omega)]

lemma dvd_add_pad (x a : Nat) (ha : 0 < a) : a ∣ x + (a - x % a) % a := by
  rcases Nat.eq_zero_or_pos (x % a) with h | h
  · simpa [h] using Nat.dvd_of_mod_eq_zero h
  · have hr : x % a < a := Nat.mod_lt _ ha
    have h2 : (a - x % a) % a = a - x % a := Nat.mod_eq_of_lt (by omega)
    rw [h2]
    refine ⟨x / a + 1, ?_⟩
    have h3 := Nat.div_add_mod x a
    rw [Nat.mul_add, Nat.mul_one]
    omega

lemma pad_min (x a m : Nat) (ha : 0 < a) (hm : a ∣ m) (hxm : x ≤ m) :
    x + (a - x % a) % a ≤ m := by
  by_contra hc
  push_neg at hc
  have hpad : (a - x % a) % a < a := Nat.mod_lt _ ha
  have h1 : a ∣ (x + (a - x % a) % a) - m := Nat.dvd_sub' (dvd_add_pad x a ha) hm
  have h2 : 0 < (x + (a - x % a) % a) - m := by omega
  exact absurd (Nat.le_of_dvd h2 h1) (by omega)

lemma alloc_aligned_success (ar : arena_t) (n : Int) (k : Nat) (h1 : 0 < n)
    (hobj : ar.data + ar.pos + 2 ^ k + n.toNat < 2 ^ 64)
    (hfit : ar.pos + (2 ^ k - (ar.data + ar.pos) % 2 ^ k) % 2 ^ k + n.toNat ≤
      ar.capacity)
    (hcap : ar.capacity < 2 ^ 64) :
    arena_alloc_aligned ar n ((2 : Int) ^ k) =
      (some (ar.data + (ar.pos + (2 ^ k - (ar.data + ar.pos) % 2 ^ k) % 2 ^ k)),
       { ar with
          pos := ar.pos + (2 ^ k - (ar.data + ar.pos) % 2 ^ k) % 2 ^ k + n.toNat,
          error := some "no error" }) := by
  have hk : (0 : Nat) < 2 ^ k := Nat.two_pow_pos k
  have hpad : (2 ^ k - (ar.data + ar.pos) % 2 ^ k) % 2 ^ k < 2 ^ k :=
    Nat.mod_lt _ hk
  have hki : (0 : Int) < 2 ^ k := pow_pos (by norm_num) k
  have hdp : (ar.data + ar.pos) % 2 ^ 64 = ar.data + ar.pos :=
    Nat.mod_eq_of_lt (by omega)
  simp only [arena_alloc_aligned]
  rw [if_neg (by omega), if_neg (by omega), toNat_two_pow, two_pow_land_pred,
    if_neg (by simp), hdp]
  have e1 : (ar.pos + (2 ^ k - (ar.data + ar.pos) % 2 ^ k) % 2 ^ k) % 2 ^ 64 =
      ar.pos + (2 ^ k - (ar.data + ar.pos) % 2 ^ k) % 2 ^ k :=
    Nat.mod_eq_of_lt (by omega)
  rw [e1]
  have e2 : (ar.pos + (2 ^ k - (ar.data + ar.pos) % 2 ^ k) % 2 ^ k + n.toNat) %
      2 ^ 64 = ar.pos + (2 ^ k - (ar.data + ar.pos) % 2 ^ k) % 2 ^ k + n.toNat :=
    Nat.mod_eq_of_lt (by omega)
  rw [e2, if_neg (by omega)]
  have e3 : (ar.data + (ar.pos + (2 ^ k - (ar.data + ar.pos) % 2 ^ k) % 2 ^ k)) %
      2 ^ 64 = ar.data + (ar.pos + (2 ^ k - (ar.data + ar.pos) % 2 ^ k) % 2 ^ k) :=
    Nat.mod_eq_of_lt (by omega)
  rw [e3]

lemma alloc_aligned_fail (ar : arena_t) (n : Int) (k : Nat) (h1 : 0 < n)
    (hobj : ar.data + ar.pos + 2 ^ k + n.toNat < 2 ^ 64)
    (hover : ar.capacity <
      ar.pos + (2 ^ k - (ar.data + ar.pos) % 2 ^ k) % 2 ^ k + n.toNat) :
    arena_alloc_aligned ar n ((2 : Int) ^ k) =
      (none, { ar with error := some "arena overflow (aligned)" }) := by
  have hk : (0 : Nat) < 2 ^ k := Nat.two_pow_pos k
  have hpad : (2 ^ k - (ar.data + ar.pos) % 2 ^ k) % 2 ^ k < 2 ^ k :=
    Nat.mod_lt _ hk
  have hki : (0 : Int) < 2 ^ k := pow_pos (by norm_num) k
  have hdp : (ar.data + ar.pos) % 2 ^ 64 = ar.data + ar.pos :=
    Nat.mod_eq_of_lt (by omega)
  simp only [arena_alloc_aligned]
  rw [if_neg (by omega), if_neg (by omega), toNat_two_pow, two_pow_land_pred,
    if_neg (by simp), hdp]
  have e1 : (ar.pos + (2 ^ k - (ar.data + ar.pos) % 2 ^ k) % 2 ^ k) % 2 ^ 64 =
      ar.pos + (2 ^ k - (ar.data + ar.pos) % 2 ^ k) % 2 ^ k :=
    Nat.mod_eq_of_lt (by omega)
  rw [e1]
  have e2 : (ar.pos + (2 ^ k - (ar.data + ar.pos) % 2 ^ k) % 2 ^ k + n.toNat) %
      2 ^ 64 = ar.pos + (2 ^ k - (ar.data + ar.pos) % 2 ^ k) % 2 ^ k + n.toNat :=
    Nat.mod_eq_of_lt (by omega)
  rw [e2, if_pos (by omega)]

lemma sstep_used (w w' : StaticWorld) (h : SStep w w') (hu : w.used = true) :
    w'.used = true := by
  cases h with
  | init => simp [arena_init_static, hu]
  | alloc n => simpa [static_alloc, ofArenaS] using hu
  | allocAligned n al => simpa [static_alloc_aligned, ofArenaS] using hu
  | reset => simpa [static_reset, ofArenaS] using hu

lemma sreach_used (w w' : StaticWorld) (h : Relation.ReflTransGen SStep w w')
    (hu : w.used = true) : w'.used = true := by
  induction h with
  | refl => exact hu
  | tail h1 h2 ih => exact sstep_used _ _ h2 ih

lemma init_static_fails (w : StaticWorld) (hu : w.used = true) :
    (arena_init_static w).1 = false ∧
    (arena_init_static w).2.error = some "static arena already used" ∧
    (arena_init_static w).2.used = true := by
  simp [arena_init_static, hu]

lemma dstep_g_isSome (w w' : DWorld) (h : DStep w w') (hg : w.g.isSome = true) :
    w'.g.isSome = true := by
  cases h with
  | init size structOk dataPtr =>
      cases structOk <;> rcases dataPtr with _ | base <;>
        simp [dyn_init, arena_init, hg]
  | allocNull n => rfl
  | alloc ar n hsome => exact hg
  | allocAlignedNull n al => rfl
  | allocAligned ar n al hsome => exact hg
  | reset => exact hg
  | destroy ar hsome => rfl

lemma dreach_g_isSome (w : DWorld) (h : Relation.ReflTransGen DStep DW0 w) :
    w.g.isSome = true := by
  induction h with
  | refl => rfl
  | tail h1 h2 ih => exact dstep_g_isSome _ _ h2 ih

lemma c7_alloc_step (p : Nat) (h : p + (2 ^ 31 - 1) ≤ 2 ^ 64 - 1) :
    AStep { data := 1, capacity := 2 ^ 64 - 1, pos := p, error := some "no error" }
      { data := 1, capacity := 2 ^ 64 - 1, pos := p + (2 ^ 31 - 1),
        error := some "no error" } := by
  have ht : ((2 : Int) ^ 31 - 1).toNat = 2 ^ 31 - 1 := by decide
  have hs := alloc_success
      { data := 1, capacity := 2 ^ 64 - 1, pos := p, error := some "no error" }
      ((2 : Int) ^ 31 - 1) (by norm_num) (by rw [ht]; exact h) (by norm_num)
  have h2 : (arena_alloc
      { data := 1, capacity := 2 ^ 64 - 1, pos := p, error := some "no error" }
      ((2 : Int) ^ 31 - 1)).2 =
      { data := 1, capacity := 2 ^ 64 - 1, pos := p + (2 ^ 31 - 1),
        error := some "no error" } := by rw [hs, ht]
  exact h2 ▸ AStep.alloc _ _

lemma c7_reach (j : Nat) (h : j * (2 ^ 31 - 1) ≤ 2 ^ 64 - 1) :
    Relation.ReflTransGen AStep c7s0
      { data := 1, capacity := 2 ^ 64 - 1, pos := j * (2 ^ 31 - 1),
        error := some "no error" } := by
  induction j with
  | zero =>
      simpa using (Relation.ReflTransGen.refl :
        Relation.ReflTransGen AStep c7s0 c7s0)
  | succ j ih =>
      have he : (j + 1) * (2 ^ 31 - 1) = j * (2 ^ 31 - 1) + (2 ^ 31 - 1) :=
        Nat.succ_mul j _
      refine Relation.ReflTransGen.tail (ih (by omega)) ?_
      rw [he]
      exact c7_alloc_step _ (by omega)

/-! ### Claim C1 -/

/-- Claim C1, counterexample: the arena cexC1arena satisfies the stated
precondition of the claim (offset at most capacity, and capacity - offset
smaller than the size n = 1), yet arena_alloc succeeds and moves pos to 0,
because the machine addition pos + 1 wraps modulo 2 ^ 64; so the failure
branch of the claim is false as stated. -/
theorem C1_counterexample :
    cexC1arena.pos ≤ cexC1arena.capacity ∧
    cexC1arena.capacity - cexC1arena.pos < (1 : Int).toNat ∧
    (arena_alloc cexC1arena 1).1 = some 0 ∧
    (arena_alloc cexC1arena 1).2.pos = 0 := by
  refine ⟨by decide, by decide, by decide, by decide⟩

/-- Claim C1, amended: for an arena with pos at most capacity whose storage
object fits the 64-bit address space, and any size n > 0: if
capacity - pos is at least n then arena_alloc succeeds, returns the address
storage + pos and advances pos by exactly n; if capacity - pos is smaller
than n and the machine addition pos + n does not wrap (pos + n below 2 ^ 64,
automatic for every capacity below 2 ^ 64 - 2 ^ 31), then arena_alloc fails
and leaves pos unchanged. -/
theorem C1_alloc_exact (ar : arena_t) (n : Int)
    (hinv : ar.pos ≤ ar.capacity) (hobj : ar.data + ar.capacity < 2 ^ 64)
    (hn : 0 < n) :
    (n.toNat ≤ ar.capacity - ar.pos →
      arena_alloc ar n =
        (some (ar.data + ar.pos),
         { ar with pos := ar.pos + n.toNat, error := some "no error" })) ∧
    (ar.capacity - ar.pos < n.toNat → ar.pos + n.toNat < 2 ^ 64 →
      (arena_alloc ar n).1 = none ∧ (arena_alloc ar n).2.pos = ar.pos) := by
  constructor
  · intro hfit
    have h2 : ar.pos + n.toNat ≤ ar.capacity := by omega
    rw [alloc_success ar n hn h2 (by omega),
      Nat.mod_eq_of_lt (show ar.data + ar.pos < 2 ^ 64 by omega)]
  · intro hover hw
    rw [alloc_fail ar n hn (by omega) hw]
    exact ⟨rfl, rfl⟩

/-- Claim C1, witness: both branches of the amended theorem evaluated on a
concrete arena of capacity 10 at pos 3, with sizes 4 (fits) and 9 (does
not fit). -/
theorem C1_witness :
    arena_alloc { data := 100, capacity := 10, pos := 3, error := some "no error" } 4 =
      (some 103,
       { data := 100, capacity := 10, pos := 7, error := some "no error" }) ∧
    (arena_alloc { data := 100, capacity := 10, pos := 3, error := some "no error" } 9).1 = none ∧
    (arena_alloc { data := 100, capacity := 10, pos := 3, error := some "no error" } 9).2.pos = 3 := by
  refine ⟨?_, ?_, ?_⟩
  · exact (C1_alloc_exact
      { data := 100, capacity := 10, pos := 3, error := some "no error" } 4
      (by decide) (by decide) (by decide)).1 (by decide)
  · exact ((C1_alloc_exact
      { data := 100, capacity := 10, pos := 3, error := some "no error" } 9
      (by decide) (by decide) (by decide)).2 (by decide) (by decide)).1
  · exact ((C1_alloc_exact
      { data := 100, capacity := 10, pos := 3, error := some "no error" } 9
      (by decide) (by decide) (by decide)).2 (by decide) (by decide)).2

/-! ### Claim C2 -/

/-- Claim C2, counterexample: on cexC2arena (pos = capacity = 2 ^ 64 - 7,
base address 6) the call arena_alloc_aligned with size 6 and alignment 4
succeeds and returns address 0, strictly below storage + offset, because the
address arithmetic wraps modulo 2 ^ 64; the returned address is therefore not
the smallest aligned address at or after storage + offset. -/
theorem C2_counterexample :
    cexC2arena.pos ≤ cexC2arena.capacity ∧
    (arena_alloc_aligned cexC2arena 6 4).1 = some 0 ∧
    0 < cexC2arena.data + cexC2arena.pos := by
  refine ⟨by decide, by decide, by decide⟩

/-- Claim C2, amended: for an arena with pos at most capacity, a power-of-two
alignment and a size n > 0, provided no machine addition wraps
(data + capacity + alignment + n below 2 ^ 64): whenever arena_alloc_aligned
succeeds, the returned address is divisible by the alignment, lies at or
after storage + pos and within one alignment of it, is minimal among the
aligned addresses at or after storage + pos, and the new pos equals the
cursor position of the returned address plus n. -/
theorem C2_aligned_exact (ar : arena_t) (n al : Int) (ret : Nat)
    (hpow : ∃ k : Nat, al = (2 : Int) ^ k) (hn : 0 < n)
    (hinv : ar.pos ≤ ar.capacity)
    (hobj : ar.data + ar.capacity + al.toNat + n.toNat < 2 ^ 64)
    (hsucc : (arena_alloc_aligned ar n al).1 = some ret) :
    al.toNat ∣ ret ∧
    ar.data + ar.pos ≤ ret ∧
    ret < ar.data + ar.pos + al.toNat ∧
    (∀ m : Nat, al.toNat ∣ m → ar.data + ar.pos ≤ m → ret ≤ m) ∧
    (arena_alloc_aligned ar n al).2.pos = (ret - ar.data) + n.toNat := by
  obtain ⟨k, rfl⟩ := hpow
  rw [toNat_two_pow] at hobj ⊢
  have hk : (0 : Nat) < 2 ^ k := Nat.two_pow_pos k
  have hpad : (2 ^ k - (ar.data + ar.pos) % 2 ^ k) % 2 ^ k < 2 ^ k :=
    Nat.mod_lt _ hk
  have hobj2 : ar.data + ar.pos + 2 ^ k + n.toNat < 2 ^ 64 := by omega
  have hfit : ar.pos + (2 ^ k - (ar.data + ar.pos) % 2 ^ k) % 2 ^ k + n.toNat ≤
      ar.capacity := by
    by_contra hc
    push_neg at hc
    rw [alloc_aligned_fail ar n k hn hobj2 hc] at hsucc
    exact absurd hsucc (by simp)
  have heq := alloc_aligned_success ar n k hn hobj2 hfit (by omega)
  rw [heq] at hsucc ⊢
  have hret : ret =
      ar.data + (ar.pos + (2 ^ k - (ar.data + ar.pos) % 2 ^ k) % 2 ^ k) := by
    simpa using hsucc.symm
  subst hret
  have hdvd := dvd_add_pad (ar.data + ar.pos) (2 ^ k) hk
  refine ⟨by simpa [Nat.add_assoc] using hdvd, by omega, by omega, ?_, by simp⟩
  intro m hm hle
  have := pad_min (ar.data + ar.pos) (2 ^ k) m hk hm hle
  omega

/-- Claim C2, witness: the amended theorem evaluated on a concrete arena at
base 3, pos 1, with size 4 and alignment 8: the returned address 8 is the
smallest multiple of 8 at or after address 4, and pos becomes 9. -/
theorem C2_witness :
    (8 : Nat) ∣ 8 ∧ (3 : Nat) + 1 ≤ 8 ∧ (8 : Nat) < 3 + 1 + 8 ∧
    (arena_alloc_aligned
      { data := 3, capacity := 100, pos := 1, error := some "no error" } 4 8).2.pos =
      9 := by
  have h := C2_aligned_exact
      { data := 3, capacity := 100, pos := 1, error := some "no error" } 4 8 8
      ⟨3, by norm_num⟩ (by decide) (by decide) (by decide) (by decide)
  exact ⟨h.1, h.2.1, h.2.2.1, h.2.2.2.2⟩

/-! ### Claim C3 -/

/-- Claim C3, counterexample: on cexC3arena the exact unbounded sum
offset + n exceeds capacity (pos = capacity = 2 ^ 64 - 2, n = 3), yet
arena_alloc succeeds, returns a pointer and clears the error: the capacity
comparison is computed in wrapping 64-bit arithmetic and does admit an
allocation through integer wraparound, so the claim that it is a hard
mathematical check is false. -/
theorem C3_counterexample :
    cexC3arena.pos ≤ cexC3arena.capacity ∧
    cexC3arena.capacity < cexC3arena.pos + (3 : Int).toNat ∧
    (arena_alloc cexC3arena 3).1 = some 3 ∧
    (arena_alloc cexC3arena 3).2.error = some "no error" := by
  refine ⟨by decide, by decide, by decide, by decide⟩

/-- Claim C3, amended: the capacity comparison is exact whenever the machine
addition does not wrap: for every size n > 0 with pos + n below 2 ^ 64 and
pos + n exceeding capacity, arena_alloc fails, records the overflow error,
and changes nothing else. Wraparound is only reachable for capacities of at
least 2 ^ 64 - 2 ^ 31 + 1, which arise from arena_init with a negative size. -/
theorem C3_overflow_check_exact (ar : arena_t) (n : Int) (hn : 0 < n)
    (hw : ar.pos + n.toNat < 2 ^ 64)
    (hover : ar.capacity < ar.pos + n.toNat) :
    arena_alloc ar n = (none, { ar with error := some "arena overflow" }) :=
  alloc_fail ar n hn hover hw

/-- Claim C3, witness: the amended theorem evaluated on a concrete arena of
capacity 10 at pos 8 with size 5. -/
theorem C3_witness :
    arena_alloc { data := 0, capacity := 10, pos := 8, error := some "no error" } 5 =
      (none, { data := 0, capacity := 10, pos := 8, error := some "arena overflow" }) :=
  C3_overflow_check_exact
    { data := 0, capacity := 10, pos := 8, error := some "no error" } 5
    (by decide) (by decide) (by decide)

/-! ### Claim C4 -/

/-- Claim C4, counterexample: size 0 is non-positive, yet arena_init 0
returns a live arena (with capacity 0) when the backing allocator returns
memory, which the collaborator contract permits (for instance glibc malloc of
size 0 may return a non-null pointer); dynamic arena_init performs no size
validation at all, so the claim that every non-positive size is rejected is
false. -/
theorem C4_counterexample :
    (0 : Int) ≤ 0 ∧
    (arena_init 0 true (some 4096) (some "no error")).1 =
      some { data := 4096, capacity := 0, pos := 0, error := some "no error" } :=
  ⟨le_refl 0, rfl⟩

/-- Claim C4, amended: dynamic arena_init validates nothing: it fails exactly
when one of the two backing allocations fails, recording the matching out of
memory message in the global slot, and otherwise returns a live arena with
pos 0, a cleared error, and capacity equal to the int-to-unsigned-long
conversion of size, for every size including non-positive ones (a negative
size yields a capacity of at least 2 ^ 64 - 2 ^ 31). -/
theorem C4_init_no_validation (size : Int) (structOk : Bool)
    (dataPtr : Option Nat) (g : Option String) :
    (structOk = false →
      arena_init size structOk dataPtr g =
        (none, some "out of memory (arena struct)")) ∧
    (structOk = true → dataPtr = none →
      arena_init size structOk dataPtr g =
        (none, some "out of memory (arena data)")) ∧
    (∀ base : Nat, structOk = true → dataPtr = some base →
      arena_init size structOk dataPtr g =
        (some { data := base, capacity := intToULong size, pos := 0,
                error := some "no error" }, g)) := by
  refine ⟨?_, ?_, ?_⟩
  · intro h; subst h; simp [arena_init]
  · intro h1 h2; subst h1; subst h2; simp [arena_init]
  · intro base h1 h2; subst h1; subst h2; simp [arena_init]

/-- Claim C4, witness: the amended theorem evaluated at size -5 with both
allocations succeeding: arena_init returns a live arena of capacity
2 ^ 64 - 5. -/
theorem C4_witness :
    arena_init (-5) true (some 8) (some "no error") =
      (some { data := 8, capacity := 2 ^ 64 - 5, pos := 0, error := some "no error" },
       some "no error") := by
  exact (C4_init_no_validation (-5) true (some 8) (some "no error")).2.2 8 rfl rfl

/-! ### Claim C5 -/

/-- Claim C5, counterexample: a first fixed-storage construction succeeds,
and after running the only candidate release operation the code offers
(arena_reset on the shared instance) a second construction still fails with
the already-used error: the code contains no release or unclaim operation
that makes a later construction succeed, so the second half of the claim is
false. -/
theorem C5_counterexample :
    (arena_init_static (staticWorld0 8192 64)).1 = true ∧
    (arena_init_static
      (static_reset (arena_init_static (staticWorld0 8192 64)).2)).1 = false ∧
    (arena_init_static
      (static_reset (arena_init_static (staticWorld0 8192 64)).2)).2.error =
      some "static arena already used" := by
  refine ⟨by decide, by decide, by decide⟩

/-- Claim C5, amended: a second fixed-storage construction while the claim
flag is set fails, records the already-used error on the shared instance and
leaves the flag set; and every exported fixed-storage operation preserves a
set flag, so no release operation exists and construction never succeeds
again within the process. -/
theorem C5_second_init_fails :
    (∀ w : StaticWorld, w.used = true →
      (arena_init_static w).1 = false ∧
      (arena_init_static w).2.error = some "static arena already used" ∧
      (arena_init_static w).2.used = true) ∧
    (∀ w w' : StaticWorld, SStep w w' → w.used = true → w'.used = true) :=
  ⟨fun w hu => init_static_fails w hu,
   fun w w' h hu => sstep_used w w' h hu⟩

/-- Claim C5, witness: the amended theorem evaluated right after a first
successful construction of a 4096-byte static arena. -/
theorem C5_witness :
    (arena_init_static (arena_init_static (staticWorld0 4096 32)).2).1 = false ∧
    (arena_init_static (arena_init_static (staticWorld0 4096 32)).2).2.error =
      some "static arena already used" ∧
    (arena_init_static (arena_init_static (staticWorld0 4096 32)).2).2.used =
      true :=
  C5_second_init_fails.1 (arena_init_static (staticWorld0 4096 32)).2 (by decide)

/-! ### Claim C6 -/

/-- Claim C6, counterexample: on cexC6arena with alignment 4 and size 2 the
aligned cursor is 2 ^ 64 - 2 (it is at or after pos, its address is divisible
by 4, and it lies within one alignment of pos, hence is the aligned position
of the claim), and its exact sum with the size exceeds capacity; yet the call
succeeds and moves pos, because the capacity comparison wraps modulo 2 ^ 64.
The claim that such a call fails and leaves pos unchanged is therefore false
as stated. -/
theorem C6_counterexample :
    cexC6arena.pos ≤ cexC6arena.capacity ∧
    cexC6arena.pos ≤ 2 ^ 64 - 2 ∧
    (cexC6arena.data + (2 ^ 64 - 2)) % 4 = 0 ∧
    2 ^ 64 - 2 < cexC6arena.pos + 4 ∧
    cexC6arena.capacity < (2 ^ 64 - 2) + (2 : Int).toNat ∧
    (arena_alloc_aligned cexC6arena 2 4).1 = some 0 ∧
    (arena_alloc_aligned cexC6arena 2 4).2.pos ≠ cexC6arena.pos := by
  refine ⟨by decide, by decide, by decide, by decide, by decide, by decide,
    by decide⟩

/-- Claim C6, amended: when no machine addition wraps (data + pos + alignment
+ n below 2 ^ 64) and the aligned position plus the size exceeds capacity,
arena_alloc_aligned fails, records the aligned overflow error, and leaves the
arena otherwise untouched: in particular pos is exactly unchanged and the
skipped padding is never committed. -/
theorem C6_aligned_fail_atomic (ar : arena_t) (n al : Int)
    (hpow : ∃ k : Nat, al = (2 : Int) ^ k) (hn : 0 < n)
    (hobj : ar.data + ar.pos + al.toNat + n.toNat < 2 ^ 64)
    (hover : ar.capacity <
      ar.pos + (al.toNat - (ar.data + ar.pos) % al.toNat) % al.toNat + n.toNat) :
    arena_alloc_aligned ar n al =
      (none, { ar with error := some "arena overflow (aligned)" }) := by
  obtain ⟨k, rfl⟩ := hpow
  rw [toNat_two_pow] at hobj hover
  exact alloc_aligned_fail ar n k hn hobj hover

/-- Claim C6, witness: the amended theorem evaluated on a concrete arena of
capacity 10 at pos 5 (already 8-aligned at base 3), size 6: the aligned sum
11 exceeds 10, the call fails and pos stays 5. -/
theorem C6_witness :
    arena_alloc_aligned
      { data := 3, capacity := 10, pos := 5, error := some "no error" } 6 8 =
      (none,
       { data := 3, capacity := 10, pos := 5,
         error := some "arena overflow (aligned)" }) := by
  exact C6_aligned_fail_atomic
    { data := 3, capacity := 10, pos := 5, error := some "no error" } 6 8
    ⟨3, by norm_num⟩ (by decide) (by decide) (by decide)

/-! ### Claim C7

Helper lemmas for the invariant and for cursor monotonicity. -/

lemma astep_inv (ar ar' : arena_t) (h : AStep ar ar')
    (hi : ar.pos ≤ ar.capacity) :
    ar'.pos ≤ ar'.capacity ∧ ar'.capacity = ar.capacity := by
  cases h with
  | alloc n =>
      simp only [arena_alloc]
      split
      · exact ⟨hi, rfl⟩
      · split
        · exact ⟨hi, rfl⟩
        · rename_i h2
          exact ⟨Nat.le_of_not_lt h2, rfl⟩
  | allocAligned n al =>
      simp only [arena_alloc_aligned]
      split
      · exact ⟨hi, rfl⟩
      · split
        · exact ⟨hi, rfl⟩
        · split
          · exact ⟨hi, rfl⟩
          · split
            · exact ⟨hi, rfl⟩
            · rename_i h4
              exact ⟨Nat.le_of_not_lt h4, rfl⟩
  | reset => exact ⟨Nat.zero_le _, rfl⟩

lemma areach_inv (ar ar' : arena_t) (h : Relation.ReflTransGen AStep ar ar')
    (hi : ar.pos ≤ ar.capacity) :
    ar'.pos ≤ ar'.capacity ∧ ar'.capacity = ar.capacity := by
  induction h with
  | refl => exact ⟨hi, rfl⟩
  | tail h1 h2 ih =>
      obtain ⟨hp, hc⟩ := ih
      obtain ⟨hp2, hc2⟩ := astep_inv _ _ h2 hp
      exact ⟨hp2, hc2.trans hc⟩

lemma le_mod_chain (p q r : Nat) (h : p + q + r < 2 ^ 64) :
    p ≤ ((p + q) % 2 ^ 64 + r) % 2 ^ 64 := by
  rw [Nat.mod_eq_of_lt (by omega), Nat.mod_eq_of_lt (by omega)]
  omega

lemma alloc_monotone (ar : arena_t) (n : Int) (hw : ar.pos + n.toNat < 2 ^ 64) :
    ar.pos ≤ (arena_alloc ar n).2.pos := by
  simp only [arena_alloc]
  split
  · exact Nat.le_refl _
  · split
    · exact Nat.le_refl _
    · show ar.pos ≤ (ar.pos + n.toNat) % 2 ^ 64
      rw [Nat.mod_eq_of_lt hw]
      omega

lemma alloc_aligned_monotone (ar : arena_t) (n al : Int)
    (hw : ar.pos + al.toNat + n.toNat < 2 ^ 64) :
    ar.pos ≤ (arena_alloc_aligned ar n al).2.pos := by
  simp only [arena_alloc_aligned]
  split
  · exact Nat.le_refl _
  · split
    · exact Nat.le_refl _
    · split
      · exact Nat.le_refl _
      · rename_i h1 h2 h3
        have hal : 0 < al.toNat := by omega
        have hpad :
            (al.toNat - (ar.data + ar.pos) % 2 ^ 64 % al.toNat) % al.toNat <
              al.toNat := Nat.mod_lt _ hal
        split
        · exact Nat.le_refl _
        · exact le_mod_chain _ _ _ (by omega)

/-- Claim C7, counterexample: from the arena produced by arena_init (-1)
(capacity 2 ^ 64 - 1, base address 1), a chain of 8589934596 successful
arena_alloc calls of INT_MAX bytes each reaches the state c7s1 with
pos = 2 ^ 64 - 4; in that reachable state one more INT_MAX allocation
succeeds and strictly decreases pos (the machine addition wraps), refuting
the claim that no operation other than reset ever decreases the offset. -/
theorem C7_counterexample :
    (arena_init (-1) true (some 1) (some "no error")).1 = some c7s0 ∧
    Relation.ReflTransGen AStep c7s0 c7s1 ∧
    c7s1.pos ≤ c7s1.capacity ∧
    (arena_alloc c7s1 ((2 : Int) ^ 31 - 1)).1.isSome = true ∧
    (arena_alloc c7s1 ((2 : Int) ^ 31 - 1)).2.pos < c7s1.pos := by
  refine ⟨by decide, ?_, by decide, by decide, by decide⟩
  have he : (8589934596 : Nat) * (2 ^ 31 - 1) = 2 ^ 64 - 4 := by norm_num
  have h := c7_reach 8589934596 (by norm_num)
  rw [he] at h
  exact h

/-- Claim C7, amended: the invariant pos at most capacity is preserved by
every instance operation and holds in every state reachable from a state
satisfying it; no operation changes capacity; and pos is non-decreasing
under both allocation operations provided the machine additions involved do
not wrap (automatic for every capacity below 2 ^ 64 - 2 ^ 32). -/
theorem C7_invariant_monotone :
    (∀ ar ar' : arena_t, AStep ar ar' → ar.pos ≤ ar.capacity →
      ar'.pos ≤ ar'.capacity ∧ ar'.capacity = ar.capacity) ∧
    (∀ ar ar' : arena_t, Relation.ReflTransGen AStep ar ar' →
      ar.pos ≤ ar.capacity →
      ar'.pos ≤ ar'.capacity ∧ ar'.capacity = ar.capacity) ∧
    (∀ (ar : arena_t) (n : Int), ar.pos + n.toNat < 2 ^ 64 →
      ar.pos ≤ (arena_alloc ar n).2.pos) ∧
    (∀ (ar : arena_t) (n al : Int), ar.pos + al.toNat + n.toNat < 2 ^ 64 →
      ar.pos ≤ (arena_alloc_aligned ar n al).2.pos) :=
  ⟨fun ar ar' h hi => astep_inv ar ar' h hi,
   fun ar ar' h hi => areach_inv ar ar' h hi,
   fun ar n hw => alloc_monotone ar n hw,
   fun ar n al hw => alloc_aligned_monotone ar n al hw⟩

/-- Claim C7, witness: the amended theorem evaluated on concrete arenas: a
reset step preserves the invariant and the capacity, and an allocation of 3
bytes at pos 5 does not decrease the cursor. -/
theorem C7_witness :
    ((arena_reset_live { data := 4, capacity := 9, pos := 6, error := some "x" }).pos ≤
      (arena_reset_live { data := 4, capacity := 9, pos := 6, error := some "x" }).capacity ∧
     (arena_reset_live { data := 4, capacity := 9, pos := 6, error := some "x" }).capacity = 9) ∧
    (5 : Nat) ≤
      (arena_alloc
        { data := 0, capacity := 12, pos := 5, error := some "no error" } 3).2.pos :=
  ⟨C7_invariant_monotone.1 _ _
      (AStep.reset { data := 4, capacity := 9, pos := 6, error := some "x" })
      (by decide),
   C7_invariant_monotone.2.2.1
      { data := 0, capacity := 12, pos := 5, error := some "no error" } 3
      (by decide)⟩

/-! ### Claim C8 -/

/-- Claim C8: arena_reset on a live arena sets pos to 0 and clears the error
in every state; it is idempotent (two consecutive resets equal one); and
arena_reset of an absent arena is a no-op returning absent, not an error. -/
theorem C8_reset_idempotent :
    (∀ ar : arena_t,
      arena_reset (some ar) =
        some { ar with pos := 0, error := some "no error" }) ∧
    (∀ o : Option arena_t, arena_reset (arena_reset o) = arena_reset o) ∧
    arena_reset none = none := by
  refine ⟨fun ar => rfl, fun o => ?_, rfl⟩
  cases o <;> rfl

/-! ### Claim C9 -/

/-- Claim C9: every exported fixed-storage operation preserves a set claim
flag, a successful construction sets the flag, and from any state with the
flag set every reachable state still refuses construction with the
already-used error: after the first successful construction the static arena
is never claimable again within the process. -/
theorem C9_static_claim_permanent :
    (∀ w w' : StaticWorld, SStep w w' → w.used = true → w'.used = true) ∧
    (∀ w : StaticWorld, (arena_init_static w).1 = true →
      (arena_init_static w).2.used = true) ∧
    (∀ w w' : StaticWorld, w.used = true →
      Relation.ReflTransGen SStep w w' →
      (arena_init_static w').1 = false ∧
      (arena_init_static w').2.error = some "static arena already used") := by
  refine ⟨fun w w' h hu => sstep_used w w' h hu, ?_, ?_⟩
  · intro w h
    cases hw : w.used with
    | true => simp [arena_init_static, hw]
    | false => simp [arena_init_static, hw]
  · intro w w' hu hr
    have hu2 := sreach_used w w' hr hu
    exact ⟨(init_static_fails w' hu2).1, (init_static_fails w' hu2).2.1⟩

/-- Claim C9, witness: the permanence theorem evaluated right after a first
successful construction of an 8192-byte static arena, with the empty chain
of further operations. -/
theorem C9_witness :
    (arena_init_static (arena_init_static (staticWorld0 8192 16)).2).1 = false ∧
    (arena_init_static (arena_init_static (staticWorld0 8192 16)).2).2.error =
      some "static arena already used" :=
  C9_static_claim_permanent.2.2 (arena_init_static (staticWorld0 8192 16)).2
    (arena_init_static (staticWorld0 8192 16)).2 (by decide)
    Relation.ReflTransGen.refl

/-! ### Claim C10 -/

/-- Claim C10: arena_error always returns a present string: for a live
instance it returns the recorded message, falling back to the canonical no
error string even when the stored field is NULL; for an absent instance it
returns the global slot, which holds a present string in every world
reachable from the initial dynamic-mode world. -/
theorem C10_error_never_null :
    (∀ (g : Option String) (ar : arena_t),
      (arena_error g (some ar)).isSome = true) ∧
    (∀ (g : Option String) (ar : arena_t), ar.error = none →
      arena_error g (some ar) = some "no error") ∧
    (∀ w : DWorld, Relation.ReflTransGen DStep DW0 w →
      (arena_error w.g none).isSome = true ∧
      (arena_error w.g w.arena).isSome = true) := by
  refine ⟨fun g ar => rfl, fun g ar h => by simp [arena_error, h], ?_⟩
  intro w hr
  have hg := dreach_g_isSome w hr
  refine ⟨by simpa [arena_error] using hg, ?_⟩
  cases ha : w.arena with
  | none => simpa [arena_error] using hg
  | some ar => simp [arena_error]

/-- Claim C10, witness: the theorem evaluated at the initial world with the
empty chain of operations. -/
theorem C10_witness :
    (arena_error DW0.g none).isSome = true ∧
    (arena_error DW0.g DW0.arena).isSome = true :=
  C10_error_never_null.2.2 DW0 Relation.ReflTransGen.refl
